import Mathlib

/-!
Verification of the solar-energy ingestion / summary / forecast pipeline
(`src/azure-functions/function_app.py`) against its specification.

Modelling conventions, shared by all definitions below:
  * Python floats coming from the weather API and from SQL aggregates are
    modelled as rationals (`ℚ`); SQL `NULL` / Python `None` as `Option`.
  * Calendar dates are modelled as integer day numbers (`ℤ`), so that
    `DATEADD(day, k, d)` is `d + k` and `(e - s).days` is `e - s`.
  * A Python function that can raise is modelled with `Except String`,
    the error string standing for the exception message.
  * Text messages assembled with f-strings are modelled as structured
    values carrying the data that is interpolated; the decimal rounding
    used purely for display is not modelled, the control flow and the
    classification logic are modelled exactly.
-/

/-- Percent change helper, translated from `_pct_change` (lines 161-167):
returns `none` when today is null or the baseline is null or zero, else
`(today - base) / base * 100`.  The Python `except ZeroDivisionError`
branch is unreachable because of the `base_val in (None, 0)` guard, and
rational division never raises, so it has no counterpart here. -/
def pct_change (today_val base_val : Option ℚ) : Option ℚ :=
  if today_val = none ∨ base_val = none ∨ base_val = some 0 then
    none
  else
    match today_val, base_val with
    | some t, some b => some ((t - b) / b * 100)
    | _, _ => none

/-- Trend classification from `heuristic_summary` (lines 175-177):
`trend = "near"`, then `if pct > 10: trend = "above"`, then
`if pct < -10: trend = "below"`, translated as the same sequence of
reassignments. -/
def heuristic_trend (pct : ℚ) : String :=
  let t0 := "near"
  let t1 := if pct > 10 then "above" else t0
  let t2 := if pct < -10 then "below" else t1
  t2

/-- Structured form of the summary text built by `heuristic_summary`
(lines 169-180): which branch was taken and the values interpolated into
the message. -/
inductive SummaryMsg where
  | noDataToday (zip : String)
  | firstDay (zip : String) (ghi dni cloud : ℚ)
  | vsBaseline (zip : String) (trend : String) (pct ghi dni cloud : ℚ)
  deriving DecidableEq

/-- Translation of `heuristic_summary` (lines 169-180).  `dni_mean or 0`
and `cloud_mean or 0` become `Option.getD _ 0`. -/
def heuristic_summary (zip_code : String) (ghi_mean dni_mean cloud_mean : Option ℚ)
    (pct_vs_base : Option ℚ) : SummaryMsg :=
  match ghi_mean with
  | none => SummaryMsg.noDataToday zip_code
  | some g =>
    match pct_vs_base with
    | none => SummaryMsg.firstDay zip_code g (dni_mean.getD 0) (cloud_mean.getD 0)
    | some p =>
      SummaryMsg.vsBaseline zip_code (heuristic_trend p) p g
        (dni_mean.getD 0) (cloud_mean.getD 0)

/-- Unfolds the sequential reassignments of `heuristic_trend` into the
equivalent nested conditional. -/
lemma heuristic_trend_eq_ite (p : ℚ) :
    heuristic_trend p =
      if p < -10 then "below" else if p > 10 then "above" else "near" := by
  unfold heuristic_trend
  rfl

/-- C1: the heuristic summary classifies the trend as "above" exactly when
`pct > 10`, "below" exactly when `pct < -10`, and "near" otherwise; at the
boundaries, `10` and `-10` classify as "near" while `10.01` classifies as
"above" and `-10.01` as "below"; and the baseline branch of
`heuristic_summary` reports exactly this classification. -/
theorem heuristic_trend_classification :
    (∀ p : ℚ, heuristic_trend p = "above" ↔ p > 10) ∧
    (∀ p : ℚ, heuristic_trend p = "below" ↔ p < -10) ∧
    (∀ p : ℚ, heuristic_trend p = "near" ↔ (-10 ≤ p ∧ p ≤ 10)) ∧
    heuristic_trend 10 = "near" ∧
    heuristic_trend (-10) = "near" ∧
    heuristic_trend (10.01 : ℚ) = "above" ∧
    heuristic_trend (-10.01 : ℚ) = "below" ∧
    (∀ z g d c p, heuristic_summary z (some g) d c (some p) =
      SummaryMsg.vsBaseline z (heuristic_trend p) p g (d.getD 0) (c.getD 0)) := by
  have habove : ∀ p : ℚ, heuristic_trend p = "above" ↔ p > 10 := by
    intro p
    rw [heuristic_trend_eq_ite]
    by_cases hb : p < -10
    · rw [if_pos hb]
      constructor
      · intro h; exact absurd h (by decide)
      · intro h; exfalso; linarith
    · rw [if_neg hb]
      by_cases ha : p > 10
      · rw [if_pos ha]
        exact ⟨fun _ => ha, fun _ => rfl⟩
      · rw [if_neg ha]
        constructor
        · intro h; exact absurd h (by decide)
        · intro h; exact absurd h ha
  have hbelow : ∀ p : ℚ, heuristic_trend p = "below" ↔ p < -10 := by
    intro p
    rw [heuristic_trend_eq_ite]
    by_cases hb : p < -10
    · rw [if_pos hb]
      exact ⟨fun _ => hb, fun _ => rfl⟩
    · rw [if_neg hb]
      by_cases ha : p > 10
      · rw [if_pos ha]
        constructor
        · intro h; exact absurd h (by decide)
        · intro h; exact absurd h hb
      · rw [if_neg ha]
        constructor
        · intro h; exact absurd h (by decide)
        · intro h; exact absurd h hb
  have hnear : ∀ p : ℚ, heuristic_trend p = "near" ↔ (-10 ≤ p ∧ p ≤ 10) := by
    intro p
    rw [heuristic_trend_eq_ite]
    by_cases hb : p < -10
    · rw [if_pos hb]
      constructor
      · intro h; exact absurd h (by decide)
      · intro h; exfalso; linarith [h.1]
    · rw [if_neg hb]
      by_cases ha : p > 10
      · rw [if_pos ha]
        constructor
        · intro h; exact absurd h (by decide)
        · intro h; exfalso; linarith [h.2]
      · rw [if_neg ha]
        constructor
        · intro _; exact ⟨by linarith, by linarith⟩
        · intro _; rfl
  refine ⟨habove, hbelow, hnear, ?_, ?_, ?_, ?_, ?_⟩
  · exact (hnear 10).mpr ⟨by norm_num, le_refl _⟩
  · exact (hnear (-10)).mpr ⟨le_refl _, by norm_num⟩
  · exact (habove (10.01 : ℚ)).mpr (by norm_num)
  · exact (hbelow (-10.01 : ℚ)).mpr (by norm_num)
  · intro z g d c p
    rfl

/-- Witness for C1 at a concrete input: `pct = 10.01` classifies as
"above". -/
theorem heuristic_trend_classification_witness :
    heuristic_trend (10.01 : ℚ) = "above" :=
  heuristic_trend_classification.2.2.2.2.2.1

/-- C2: `pct_change` is `none` exactly when today is null, the baseline is
null, or the baseline is zero; on defined inputs it is exactly
`(today - base) / base * 100`. -/
theorem pct_change_spec :
    (∀ t b : Option ℚ,
      pct_change t b = none ↔ (t = none ∨ b = none ∨ b = some 0)) ∧
    (∀ tv bv : ℚ, bv ≠ 0 →
      pct_change (some tv) (some bv) = some ((tv - bv) / bv * 100)) := by
  constructor
  · intro t b
    cases t with
    | none => simp [pct_change]
    | some tv =>
      cases b with
      | none => simp [pct_change]
      | some bv =>
        by_cases h0 : bv = 0
        · subst h0
          simp [pct_change]
        · rw [pct_change, if_neg]
          · simp [h0]
          · push_neg
            refine ⟨Option.some_ne_none _, Option.some_ne_none _, ?_⟩
            intro hc
            exact h0 (Option.some_inj.mp hc)
  · intro tv bv hbv
    have hcond : ¬(some tv = none ∨ (some bv : Option ℚ) = none ∨ some bv = some 0) := by
      push_neg
      refine ⟨Option.some_ne_none _, Option.some_ne_none _, ?_⟩
      intro hc
      exact hbv (Option.some_inj.mp hc)
    rw [pct_change, if_neg hcond]

/-- Witness for C2 at a concrete input: today 110, baseline 100 gives a
10 percent change. -/
theorem pct_change_spec_witness :
    pct_change (some 110) (some 100) = some ((110 - 100) / 100 * 100) :=
  pct_change_spec.2 110 100 (by norm_num)

/-- Python `str.strip()` with no argument: removes leading and trailing
whitespace.  Defined over the character list so that it evaluates by
kernel reduction. -/
def pyStrip (s : String) : String :=
  ⟨((s.data.dropWhile Char.isWhitespace).reverse.dropWhile Char.isWhitespace).reverse⟩

/-- Mean of the most recent 24 samples, translated from `mean_last24`
(lines 65-71).  An hourly series is an optional list (the JSON field may
be absent) of optional rationals (`some` for a numeric sample, `none` for
a non-numeric or missing one); `values or []` becomes `Option.getD _ []`,
the `isinstance` filter becomes `List.filterMap id`, Python `if not vals`
becomes the emptiness test, and `vals[-take:]` with `1 ≤ take ≤ len`
becomes `List.drop (len - take)`. -/
def mean_last24 (values : Option (List (Option ℚ))) : ℚ :=
  let vals := (values.getD []).filterMap id
  if vals = [] then 0
  else
    let tk := min 24 vals.length
    let slice24 := vals.drop (vals.length - tk)
    slice24.sum / (slice24.length : ℚ)

/-- Hourly payload returned by the weather API, as read by
`_open_meteo_daily_means` (lines 63-79): five optional hourly series. -/
structure HourlyData where
  shortwave_radiation : Option (List (Option ℚ))
  direct_radiation : Option (List (Option ℚ))
  diffuse_radiation : Option (List (Option ℚ))
  cloudcover : Option (List (Option ℚ))
  temperature_2m : Option (List (Option ℚ))

/-- Result of `_open_meteo_daily_means`: the five last-24h means. -/
structure DailyMeans where
  ghi : ℚ
  dni : ℚ
  dhi : ℚ
  cloud_cover : ℚ
  temp_c : ℚ
  deriving DecidableEq

/-- Translation of the result dictionary of `_open_meteo_daily_means`
(lines 73-79). -/
def open_meteo_daily_means (h : HourlyData) : DailyMeans :=
  ⟨mean_last24 h.shortwave_radiation,
   mean_last24 h.direct_radiation,
   mean_last24 h.diffuse_radiation,
   mean_last24 h.cloudcover,
   mean_last24 h.temperature_2m⟩

/-- One ingestion record as built by `fetch_daily_record` (lines 81-102). -/
structure DailyRecord where
  obs_date : String
  zip : String
  ghi : ℚ
  dni : ℚ
  dhi : ℚ
  cloud_cover : ℚ
  temp_c : ℚ
  source : String
  deriving DecidableEq

/-- Translation of `fetch_daily_record` (lines 81-102).  The composite
geocode-then-fetch step is the `Except` argument: `ok` carries the means
computed by `_open_meteo_daily_means`, `error` stands for any exception
raised inside the `try` block.  The function is total: every outcome,
including every error, yields a record, which is the shallow form of the
handler never propagating an exception.  Python `zip_code.strip()` is
`pyStrip`. -/
def fetch_daily_record (today_iso zip_code : String)
    (fetched : Except String DailyMeans) : DailyRecord :=
  match fetched with
  | Except.ok m =>
      ⟨today_iso, pyStrip zip_code, m.ghi, m.dni, m.dhi, m.cloud_cover, m.temp_c, "OPEN_METEO"⟩
  | Except.error _ =>
      ⟨today_iso, pyStrip zip_code, 0, 0, 0, 0, 20, "FALLBACK"⟩

/-- C3: the last-24 mean ignores non-numeric entries, averages the most
recent `min 24 n` of the `n` numeric samples (all of them when `n ≤ 24`),
and returns 0 when the series is absent or has no numeric sample. -/
theorem mean_last24_spec :
    mean_last24 none = 0 ∧
    (∀ vs : List (Option ℚ), vs.filterMap id = [] → mean_last24 (some vs) = 0) ∧
    (∀ vs : List (Option ℚ), mean_last24 (some (none :: vs)) = mean_last24 (some vs)) ∧
    (∀ vs : List (Option ℚ), vs.filterMap id ≠ [] → (vs.filterMap id).length ≤ 24 →
      mean_last24 (some vs) =
        (vs.filterMap id).sum / ((vs.filterMap id).length : ℚ)) ∧
    (∀ vs : List (Option ℚ), vs.filterMap id ≠ [] →
      mean_last24 (some vs) =
        ((vs.filterMap id).drop ((vs.filterMap id).length - min 24 (vs.filterMap id).length)).sum /
          (((vs.filterMap id).drop ((vs.filterMap id).length - min 24 (vs.filterMap id).length)).length : ℚ)) := by
  refine ⟨rfl, ?_, ?_, ?_, ?_⟩
  · intro vs h
    simp [mean_last24, h]
  · intro vs
    simp [mean_last24]
  · intro vs h1 h2
    have hmin : min 24 (vs.filterMap id).length = (vs.filterMap id).length :=
      min_eq_right h2
    simp [mean_last24, h1, hmin]
  · intro vs h1
    simp [mean_last24, h1]

/-- Witness for C3 at a concrete input: the series
`[some 3, none, some 5]` has numeric samples `[3, 5]` and mean 4. -/
theorem mean_last24_spec_witness :
    mean_last24 (some [some 3, none, some 5]) =
      ([some (3 : ℚ), none, some 5].filterMap id).sum /
        (([some (3 : ℚ), none, some 5].filterMap id).length : ℚ) :=
  mean_last24_spec.2.2.2.1 [some 3, none, some 5] (by decide) (by decide)

/-- C4: on any exception during geocoding or fetch, the record builder
returns the fallback record for the given day: zeroed GHI, DNI, DHI and
cloud cover, temperature 20, source tag `FALLBACK`; being a total
function of the fetch outcome, it never propagates the error. -/
theorem fetch_daily_record_fallback :
    ∀ (today_iso zip_code e : String),
      fetch_daily_record today_iso zip_code (Except.error e) =
        ⟨today_iso, pyStrip zip_code, 0, 0, 0, 0, 20, "FALLBACK"⟩ := by
  intro t z e
  rfl

/-- Result of `aoai_summary_or_heuristic`: either the text returned by the
narrative service or the structured heuristic message. -/
inductive SummaryOut where
  | fromService (text : String)
  | heuristic (msg : SummaryMsg)
  deriving DecidableEq

/-- Outcome of the `try` block of `aoai_summary_or_heuristic`
(lines 185-196).  Building the prompt interpolates
`pct_vs_base:+.1f`, which raises `TypeError` when `pct_vs_base` is
`None`, before any request is sent; otherwise the outcome is that of the
HTTP call, `ok` carrying the extracted message content and `error` any
exception (timeout, non-2xx status, missing response fields). -/
def aoai_attempt (pct_vs_base : Option ℚ) (service : Except String String) :
    Except String String :=
  match pct_vs_base with
  | none => Except.error "TypeError: unsupported format string passed to NoneType"
  | some _ => service

/-- Translation of `aoai_summary_or_heuristic` (lines 182-199).
`use_aoai` models the module-level `USE_AOAI` flag; the narrative-service
call is the `Except` argument.  On success the content is stripped
(`pyStrip`); on any failure, or when the service is not configured,
the heuristic message is returned. -/
def aoai_summary_or_heuristic (use_aoai : Bool) (service : Except String String)
    (zip_code : String) (ghi_mean dni_mean cloud_mean pct_vs_base : Option ℚ) :
    SummaryOut :=
  if use_aoai = false then
    SummaryOut.heuristic (heuristic_summary zip_code ghi_mean dni_mean cloud_mean pct_vs_base)
  else
    match aoai_attempt pct_vs_base service with
    | Except.ok s => SummaryOut.fromService (pyStrip s)
    | Except.error _ =>
        SummaryOut.heuristic (heuristic_summary zip_code ghi_mean dni_mean cloud_mean pct_vs_base)

/-- One row of the RAW observations table `SOLAR_OBS`, restricted to the
columns the forecast writer reads. -/
structure Obs where
  zip : String
  obs_date : ℤ
  ghi : ℚ
  deriving DecidableEq

/-- One row of the MART forecast table `FORECAST_7D`. -/
structure Fcst where
  zip : String
  fcst_date : ℤ
  ghi_predicted : ℚ
  method : String
  deriving DecidableEq

/-- Observations in the trailing-7-day window of the `last7` CTE
(lines 145-150): `OBS_DATE >= DATEADD(day, -6, CURRENT_DATE())`. -/
def last7_window (raw : List Obs) (today : ℤ) : List Obs :=
  raw.filter (fun o => decide (today - 6 ≤ o.obs_date))

/-- The ZIP groups produced by `GROUP BY ZIP` in the `last7` CTE: the
distinct ZIP values of the window. -/
def last7_zips (raw : List Obs) (today : ℤ) : List String :=
  ((last7_window raw today).map Obs.zip).dedup

/-- SQL `AVG(GHI)` over a group of rows (the group is never empty, so the
division is by a positive count). -/
def ghi_avg (l : List Obs) : ℚ :=
  (l.map Obs.ghi).sum / (l.length : ℚ)

/-- The `GHI_7D_AVG` of one ZIP group of the `last7` CTE. -/
def last7_avg (raw : List Obs) (today : ℤ) (z : String) : ℚ :=
  ghi_avg ((last7_window raw today).filter (fun o => o.zip == z))

/-- The rows inserted by the `INSERT ... SELECT` of `upsert_forecast_7d`
(lines 143-158): the cross join of the ZIP groups with the dates
`today + 1 .. today + 7` generated by `seq4() + 1` over a 7-row
generator, each row carrying the constant `GHI_7D_AVG` of its ZIP and the
method tag `7d_ma`. -/
def forecast_block (raw : List Obs) (today : ℤ) : List Fcst :=
  (last7_zips raw today).flatMap (fun z =>
    (List.range 7).map (fun (i : ℕ) =>
      (⟨z, today + ((i : ℤ) + 1), last7_avg raw today z, "7d_ma"⟩ : Fcst)))

/-- Translation of `upsert_forecast_7d` (lines 132-158) acting on the
forecast table state: first `DELETE ... WHERE FCST_DATE >= DATEADD(day,
1, CURRENT_DATE())` keeps only the rows dated today or earlier, then the
freshly computed block is inserted. -/
def upsert_forecast_7d (raw : List Obs) (today : ℤ) (mart : List Fcst) : List Fcst :=
  mart.filter (fun f => !decide (today + 1 ≤ f.fcst_date)) ++ forecast_block raw today

/-- Every row of the inserted block is dated tomorrow or later. -/
lemma forecast_block_future (raw : List Obs) (today : ℤ) :
    ∀ f ∈ forecast_block raw today, today + 1 ≤ f.fcst_date := by
  intro f hf
  rw [forecast_block, List.mem_flatMap] at hf
  obtain ⟨z, _, hmem⟩ := hf
  rw [List.mem_map] at hmem
  obtain ⟨i, _, rfl⟩ := hmem
  show today + 1 ≤ today + ((i : ℤ) + 1)
  omega

/-- Every row of the inserted block carries the ZIP of its group. -/
lemma forecast_block_zip (raw : List Obs) (today : ℤ) (z : String) :
    ∀ f ∈ (List.range 7).map (fun (i : ℕ) =>
      (⟨z, today + ((i : ℤ) + 1), last7_avg raw today z, "7d_ma"⟩ : Fcst)),
      f.zip = z := by
  intro f hf
  rw [List.mem_map] at hf
  obtain ⟨i, _, rfl⟩ := hf
  rfl

/-- Filtering a concatenation of groups over pairwise distinct keys by one
key that occurs in the key list returns exactly the group of that key. -/
lemma bind_filter_eq_of_nodup (l : List String) (g : String → List Fcst) (z : String)
    (hnd : l.Nodup) (hz : z ∈ l)
    (hall : ∀ z₁, ∀ f ∈ g z₁, f.zip = z₁) :
    (l.flatMap g).filter (fun f => f.zip == z) = g z := by
  induction l with
  | nil => cases hz
  | cons a t ih =>
    rw [List.flatMap_cons, List.filter_append]
    rcases List.mem_cons.mp hz with rfl | hzt
    · have h1 : (g z).filter (fun f => f.zip == z) = g z := by
        apply List.filter_eq_self.mpr
        intro f hf
        exact beq_iff_eq.mpr (hall z f hf)
      have hznotin : z ∉ t := (List.nodup_cons.mp hnd).1
      have h2 : (t.flatMap g).filter (fun f => f.zip == z) = [] := by
        apply List.filter_eq_nil_iff.mpr
        intro f hf hbeq
        rw [List.mem_flatMap] at hf
        obtain ⟨z₁, hz₁, hfz₁⟩ := hf
        have hfz : f.zip = z₁ := hall z₁ f hfz₁
        have : z₁ = z := by
          have := beq_iff_eq.mp hbeq
          rw [hfz] at this
          exact this
        exact hznotin (this ▸ hz₁)
      rw [h1, h2, List.append_nil]
    · have hanez : a ≠ z := by
        intro h
        exact (List.nodup_cons.mp hnd).1 (h ▸ hzt)
      have h1 : (g a).filter (fun f => f.zip == z) = [] := by
        apply List.filter_eq_nil_iff.mpr
        intro f hf hbeq
        have hfz : f.zip = a := hall a f hf
        apply hanez
        have := beq_iff_eq.mp hbeq
        rw [hfz] at this
        exact this
      rw [h1, List.nil_append]
      exact ih (List.nodup_cons.mp hnd).2 hzt

/-- C5: after a run of the forecast writer, the future rows of a ZIP that
has observations in the trailing-7-day window are exactly a 7-row block
dated `today + 1 .. today + 7`, all carrying the trailing-7-day
GHI mean of that ZIP and the `7d_ma` method tag; moreover the future
rows of the whole table are exactly the freshly inserted block, whatever
the prior state held — every pre-existing row dated tomorrow or later,
including stale rows of ZIPs absent from the 7-day window, is deleted;
and a second run over the same RAW data and date leaves the table
unchanged (idempotent end state). -/
theorem upsert_forecast_7d_spec :
    ∀ (raw : List Obs) (today : ℤ) (mart : List Fcst) (z : String),
      z ∈ last7_zips raw today →
      ((upsert_forecast_7d raw today mart).filter
          (fun f => decide (today + 1 ≤ f.fcst_date) && (f.zip == z)) =
        (List.range 7).map (fun (i : ℕ) =>
          (⟨z, today + ((i : ℤ) + 1), last7_avg raw today z, "7d_ma"⟩ : Fcst))) ∧
      ((upsert_forecast_7d raw today mart).filter
          (fun f => decide (today + 1 ≤ f.fcst_date)) =
        forecast_block raw today) ∧
      upsert_forecast_7d raw today (upsert_forecast_7d raw today mart) =
        upsert_forecast_7d raw today mart := by
  intro raw today mart z hz
  have hblock_nonfut : (forecast_block raw today).filter
      (fun f => !decide (today + 1 ≤ f.fcst_date)) = [] := by
    apply List.filter_eq_nil_iff.mpr
    intro f hf hneg
    have hfut := forecast_block_future raw today f hf
    simp only [Bool.not_eq_true', decide_eq_false_iff_not] at hneg
    exact hneg hfut
  refine ⟨?_, ?_, ?_⟩
  · rw [upsert_forecast_7d, List.filter_append]
    have h1 : (mart.filter (fun f => !decide (today + 1 ≤ f.fcst_date))).filter
        (fun f => decide (today + 1 ≤ f.fcst_date) && (f.zip == z)) = [] := by
      apply List.filter_eq_nil_iff.mpr
      intro f hf hp
      have hkeep : (!decide (today + 1 ≤ f.fcst_date)) = true := (List.mem_filter.mp hf).2
      simp only [Bool.not_eq_true', decide_eq_false_iff_not] at hkeep
      simp only [Bool.and_eq_true, decide_eq_true_eq] at hp
      exact hkeep hp.1
    have h2 : (forecast_block raw today).filter
        (fun f => decide (today + 1 ≤ f.fcst_date) && (f.zip == z)) =
        (forecast_block raw today).filter (fun f => f.zip == z) := by
      apply List.filter_congr
      intro f hf
      have hfut := forecast_block_future raw today f hf
      simp [hfut]
    have h3 : (forecast_block raw today).filter (fun f => f.zip == z) =
        (List.range 7).map (fun (i : ℕ) =>
          (⟨z, today + ((i : ℤ) + 1), last7_avg raw today z, "7d_ma"⟩ : Fcst)) := by
      rw [forecast_block]
      exact bind_filter_eq_of_nodup _ _ z (List.nodup_dedup _) hz
        (fun z₁ => forecast_block_zip raw today z₁)
    rw [h1, h2, h3, List.nil_append]
  · rw [upsert_forecast_7d, List.filter_append]
    have h1 : (mart.filter (fun f => !decide (today + 1 ≤ f.fcst_date))).filter
        (fun f => decide (today + 1 ≤ f.fcst_date)) = [] := by
      apply List.filter_eq_nil_iff.mpr
      intro f hf hp
      have hkeep : (!decide (today + 1 ≤ f.fcst_date)) = true := (List.mem_filter.mp hf).2
      simp only [Bool.not_eq_true', decide_eq_false_iff_not] at hkeep
      simp only [decide_eq_true_eq] at hp
      exact hkeep hp
    have h2 : (forecast_block raw today).filter
        (fun f => decide (today + 1 ≤ f.fcst_date)) = forecast_block raw today := by
      apply List.filter_eq_self.mpr
      intro f hf
      exact decide_eq_true (forecast_block_future raw today f hf)
    rw [h1, h2, List.nil_append]
  · rw [upsert_forecast_7d, upsert_forecast_7d, List.filter_append, hblock_nonfut,
      List.append_nil, List.filter_filter]
    congr 1
    apply List.filter_congr
    intro f _
    cases h : (!decide (today + 1 ≤ f.fcst_date)) <;> simp [h]

/-- Witness for C5: one observation for ZIP 93727 dated today, and a prior
forecast table holding a stale future row for the absent ZIP 99999; the
run produces exactly the 7-row future block for 93727, the future rows of
the whole table are exactly the new block (the stale 99999 row is gone),
and a second run changes nothing. -/
theorem upsert_forecast_7d_spec_witness :
    ("93727" ∈ last7_zips [⟨"93727", 0, 100⟩] 0) ∧
    (((upsert_forecast_7d [⟨"93727", 0, 100⟩] 0 [⟨"99999", 3, 50, "7d_ma"⟩]).filter
        (fun f => decide ((0 : ℤ) + 1 ≤ f.fcst_date) && (f.zip == "93727")) =
      (List.range 7).map (fun (i : ℕ) =>
        (⟨"93727", (0 : ℤ) + ((i : ℤ) + 1), last7_avg [⟨"93727", 0, 100⟩] 0 "93727", "7d_ma"⟩ : Fcst))) ∧
     ((upsert_forecast_7d [⟨"93727", 0, 100⟩] 0 [⟨"99999", 3, 50, "7d_ma"⟩]).filter
        (fun f => decide ((0 : ℤ) + 1 ≤ f.fcst_date)) =
      forecast_block [⟨"93727", 0, 100⟩] 0) ∧
     upsert_forecast_7d [⟨"93727", 0, 100⟩] 0
         (upsert_forecast_7d [⟨"93727", 0, 100⟩] 0 [⟨"99999", 3, 50, "7d_ma"⟩]) =
       upsert_forecast_7d [⟨"93727", 0, 100⟩] 0 [⟨"99999", 3, 50, "7d_ma"⟩]) :=
  ⟨by decide,
    upsert_forecast_7d_spec [⟨"93727", 0, 100⟩] 0 [⟨"99999", 3, 50, "7d_ma"⟩] "93727" (by decide)⟩

/-- C6: the summary generator is a total function (it never raises); when
the narrative service is not configured it returns the heuristic text;
when configured, any failure of the attempt, including the `TypeError`
raised while building the prompt with an undefined percent change,
falls back to the heuristic text; only a successful call returns the
service text. -/
theorem aoai_summary_or_heuristic_spec :
    (∀ (svc : Except String String) (z : String) (g d c p : Option ℚ),
      aoai_summary_or_heuristic false svc z g d c p =
        SummaryOut.heuristic (heuristic_summary z g d c p)) ∧
    (∀ (e z : String) (g d c p : Option ℚ),
      aoai_summary_or_heuristic true (Except.error e) z g d c p =
        SummaryOut.heuristic (heuristic_summary z g d c p)) ∧
    (∀ (svc : Except String String) (z : String) (g d c : Option ℚ),
      aoai_summary_or_heuristic true svc z g d c none =
        SummaryOut.heuristic (heuristic_summary z g d c none)) ∧
    (∀ (s z : String) (g d c : Option ℚ) (q : ℚ),
      aoai_summary_or_heuristic true (Except.ok s) z g d c (some q) =
        SummaryOut.fromService (pyStrip s)) := by
  refine ⟨?_, ?_, ?_, ?_⟩
  · intro svc z g d c p
    rfl
  · intro e z g d c p
    cases p <;> rfl
  · intro svc z g d c
    rfl
  · intro s z g d c q
    rfl

/-- Parsing of the `days` query parameter followed by the default, from
`int(days_param) if days_param is not None else 7` wrapped in
`try/except ValueError` with `days = 7` in the handler (trend lines
389-392, forecast lines 531-534).  The outer `Option` is presence of the
parameter, the inner `Option` is whether `int(...)` succeeds. -/
def days_or_default (days_param : Option (Option ℤ)) : ℤ :=
  match days_param with
  | none => 7
  | some none => 7
  | some (some n) => n

/-- Day clamp of the trend-by-days branch, from
`days = max(3, min(days, 60))` (line 393). -/
def clamp_trend_days (days : ℤ) : ℤ :=
  max 3 (min days 60)

/-- Day clamp of the forecast handler, from
`days = max(1, min(days, 30))` (line 535). -/
def clamp_forecast_days (days : ℤ) : ℤ :=
  max 1 (min days 30)

/-- Date-range normalisation of the trend handler (lines 382-385): swap
the endpoints when start is after end, then pull the start up to
`end - 60` when the span exceeds 60 days.  Dates are integer day
numbers, so `(d_end - d_start).days` is the difference and
`d_end - timedelta(days=60)` is `e - 60`. -/
def normalize_range (d_start d_end : ℤ) : ℤ × ℤ :=
  let p := if d_start > d_end then (d_end, d_start) else (d_start, d_end)
  if p.2 - p.1 > 60 then (p.2 - 60, p.2) else p

/-- Query selector of the trend handler: the `use_range` flag decides
between the date-range query and the day-window query. -/
inductive TrendQuery where
  | byDays (days : ℤ)
  | byRange (d_start d_end : ℤ)
  deriving DecidableEq

/-- Outcome of the validation part of `ghi_trend` (lines 362-393): a 400
JSON error body, a 500 response (the uncaught `IndexError` of
`allowed[0]` on an empty allow-list reaches the generic handler), or the
warehouse query that is then run.  `runQuery` is the only outcome that
opens a warehouse session. -/
inductive TrendStep where
  | badRequest (msg : String)
  | serverError
  | runQuery (zip : String) (q : TrendQuery)
  deriving DecidableEq

/-- Range-related input of one trend request: either the days branch
(parameter absent, malformed, or an integer) or the start/end branch,
`none` standing for a pair that fails the ISO-8601 regex and
`some (s, e)` for validly parsed dates.  The days branch is taken
exactly when not both of start and end are non-empty (lines 377, 388). -/
inductive RangeInput where
  | byDays (days_param : Option (Option ℤ))
  | byRange (parsed : Option (ℤ × ℤ))
  deriving DecidableEq

/-- Translation of the validation and dispatch logic of `ghi_trend`
(lines 362-424).  The zip parameter is stripped; an empty zip falls back
to `allowed[0]`, which raises on an empty allow-list and is then caught
as a 500; a zip outside the allow-list is a 400; then either the date
range is validated and normalised or the day count is defaulted and
clamped, and the corresponding query runs. -/
def ghi_trend (allowed : List String) (zip_param : String) (ri : RangeInput) :
    TrendStep :=
  let raw_zip := pyStrip zip_param
  match (if raw_zip = "" then allowed.head? else some raw_zip) with
  | none => TrendStep.serverError
  | some rz =>
    if rz ∈ allowed then
      match ri with
      | RangeInput.byRange none => TrendStep.badRequest "start/end must be YYYY-MM-DD"
      | RangeInput.byRange (some (s, e)) =>
          let p := normalize_range s e
          TrendStep.runQuery rz (TrendQuery.byRange p.1 p.2)
      | RangeInput.byDays dp =>
          TrendStep.runQuery rz (TrendQuery.byDays (clamp_trend_days (days_or_default dp)))
    else TrendStep.badRequest ("zip " ++ rz ++ " not allowed")

/-- Outcome of the validation part of `forecast_api` (lines 527-541),
with the same reading as `TrendStep`. -/
inductive ForecastStep where
  | badRequest (msg : String)
  | serverError
  | runQuery (zip : String) (days : ℤ)
  deriving DecidableEq

/-- Translation of the validation and dispatch logic of `forecast_api`
(lines 527-541): the day count is parsed, defaulted and clamped before
the zip is checked against the allow-list. -/
def forecast_api (allowed : List String) (zip_param : String)
    (days_param : Option (Option ℤ)) : ForecastStep :=
  let days := clamp_forecast_days (days_or_default days_param)
  let raw_zip := pyStrip zip_param
  match (if raw_zip = "" then allowed.head? else some raw_zip) with
  | none => ForecastStep.serverError
  | some rz =>
    if rz ∈ allowed then ForecastStep.runQuery rz days
    else ForecastStep.badRequest ("zip " ++ rz ++ " not allowed")

/-- C7: the trend-by-days day count is clamped to `[3, 60]` (1 becomes 3,
1000 becomes 60, 10 stays 10, and any in-range value is unchanged), the
forecast day count is clamped to `[1, 30]`, and both handlers run their
query with exactly the clamped value of the defaulted parameter. -/
theorem day_clamp_spec :
    clamp_trend_days 1 = 3 ∧
    clamp_trend_days 1000 = 60 ∧
    clamp_trend_days 10 = 10 ∧
    (∀ d : ℤ, 3 ≤ clamp_trend_days d ∧ clamp_trend_days d ≤ 60) ∧
    (∀ d : ℤ, 3 ≤ d → d ≤ 60 → clamp_trend_days d = d) ∧
    (∀ d : ℤ, 1 ≤ clamp_forecast_days d ∧ clamp_forecast_days d ≤ 30) ∧
    (∀ d : ℤ, 1 ≤ d → d ≤ 30 → clamp_forecast_days d = d) ∧
    (∀ dp, ghi_trend ["93727"] "93727" (RangeInput.byDays dp) =
      TrendStep.runQuery "93727" (TrendQuery.byDays (clamp_trend_days (days_or_default dp)))) ∧
    (∀ dp, forecast_api ["93727"] "93727" dp =
      ForecastStep.runQuery "93727" (clamp_forecast_days (days_or_default dp))) := by
  refine ⟨by decide, by decide, by decide, ?_, ?_, ?_, ?_, ?_, ?_⟩
  · intro d
    unfold clamp_trend_days
    omega
  · intro d h1 h2
    unfold clamp_trend_days
    omega
  · intro d
    unfold clamp_forecast_days
    omega
  · intro d h1 h2
    unfold clamp_forecast_days
    omega
  · intro dp
    rfl
  · intro dp
    rfl

/-- Witness for C7 at a concrete input: day count 1 is clamped into range
and left at the lower bound 3. -/
theorem day_clamp_spec_witness :
    (3 : ℤ) ≤ 3 ∧ (3 : ℤ) ≤ 60 ∧ clamp_trend_days 3 = 3 :=
  ⟨by norm_num, by norm_num, day_clamp_spec.2.2.2.2.1 3 (by norm_num) (by norm_num)⟩

/-- C8: the trend date range is swapped when start is after end, kept
when the span is at most 60 days, and collapsed to the 60 days ending at
the given end date when the span exceeds 60 days; in particular a 90-day
span `0 .. 90` collapses to `30 .. 90`. -/
theorem normalize_range_spec :
    (∀ s e : ℤ, s > e → normalize_range s e = normalize_range e s) ∧
    (∀ s e : ℤ, s ≤ e → e - s ≤ 60 → normalize_range s e = (s, e)) ∧
    (∀ s e : ℤ, s ≤ e → e - s > 60 → normalize_range s e = (e - 60, e)) ∧
    normalize_range 0 90 = (30, 90) := by
  refine ⟨?_, ?_, ?_, by norm_num [normalize_range]⟩
  · intro s e h
    have h2 : ¬ e > s := by omega
    simp [normalize_range, h, h2]
  · intro s e h1 h2
    have h3 : ¬ s > e := by omega
    have h4 : ¬ e - s > 60 := by omega
    simp [normalize_range, h3, h4]
  · intro s e h1 h2
    have h3 : ¬ s > e := by omega
    simp [normalize_range, h3, h2]

/-- Witness for C8 at a concrete input: the reversed 90-day span
`90 .. 0` is first swapped and then collapsed to `30 .. 90`. -/
theorem normalize_range_spec_witness :
    normalize_range 100 10 = normalize_range 10 100 :=
  normalize_range_spec.1 100 10 (by norm_num)

/-- C9: on both handlers, a request whose stripped zip parameter is
non-empty and outside the allow-list gets the 400 JSON error outcome,
which is not `runQuery` and therefore opens no warehouse session; and on
the trend handler an empty allow-list combined with a request that
supplies no usable zip hits the `allowed[0]` lookup and yields the 500
outcome. -/
theorem zip_allowlist_spec :
    (∀ (allowed : List String) (zp : String) (ri : RangeInput),
      pyStrip zp ≠ "" → pyStrip zp ∉ allowed →
      ghi_trend allowed zp ri = TrendStep.badRequest ("zip " ++ pyStrip zp ++ " not allowed")) ∧
    (∀ (allowed : List String) (zp : String) (dp : Option (Option ℤ)),
      pyStrip zp ≠ "" → pyStrip zp ∉ allowed →
      forecast_api allowed zp dp = ForecastStep.badRequest ("zip " ++ pyStrip zp ++ " not allowed")) ∧
    (∀ ri : RangeInput, ghi_trend [] "" ri = TrendStep.serverError) := by
  refine ⟨?_, ?_, ?_⟩
  · intro allowed zp ri h1 h2
    simp only [ghi_trend, if_neg h1]
    rw [if_neg h2]
  · intro allowed zp dp h1 h2
    simp only [forecast_api, if_neg h1]
    rw [if_neg h2]
  · intro ri
    rfl

/-- Witness for C9 at a concrete input: zip 99999 against the allow-list
containing only 93727 is rejected with the 400 outcome. -/
theorem zip_allowlist_spec_witness :
    pyStrip "99999" ≠ "" ∧ pyStrip "99999" ∉ ["93727"] ∧
    ghi_trend ["93727"] "99999" (RangeInput.byDays none) =
      TrendStep.badRequest ("zip " ++ pyStrip "99999" ++ " not allowed") :=
  ⟨by decide, by decide,
    zip_allowlist_spec.1 ["93727"] "99999" (RangeInput.byDays none) (by decide) (by decide)⟩

/-- C10: a missing `days` parameter and an unparseable `days` parameter
are interchangeable on both handlers; both default to 7 before clamping,
and with a valid zip the malformed value still reaches the query (no
error outcome), with effective day count 7. -/
theorem days_default_spec :
    days_or_default none = 7 ∧
    days_or_default (some none) = 7 ∧
    (∀ (allowed : List String) (zp : String),
      ghi_trend allowed zp (RangeInput.byDays (some none)) =
        ghi_trend allowed zp (RangeInput.byDays none)) ∧
    (∀ (allowed : List String) (zp : String),
      forecast_api allowed zp (some none) = forecast_api allowed zp none) ∧
    ghi_trend ["93727"] "93727" (RangeInput.byDays (some none)) =
      TrendStep.runQuery "93727" (TrendQuery.byDays 7) ∧
    forecast_api ["93727"] "93727" (some none) = ForecastStep.runQuery "93727" 7 := by
  refine ⟨rfl, rfl, ?_, ?_, by decide, by decide⟩
  · intro allowed zp
    rfl
  · intro allowed zp
    rfl
